import Mathlib

/-
Shallow embedding of the TKey session manager of this repository.

The embedded code:
  internal/tkey/signer.go : type Signer, NewSigner, connect, isFirmwareMode,
    isWantedApp, loadApp, printAuthorizedKey, disconnect (idle timer),
    closeNow, Public, Sign (the crypto.Signer method), handleSignals.
  the facade file (package tkey) : GetTkeyPubKey, Sign, getSigner and the
    process-wide existingSigner singleton.

The flaky external device (serial port discovery, the TKey transport and
the USS sources) is modelled as a World record fixing the outcome of every
external call; each embedded operation returns its successor state, its
result, and the list of Transport Adapter calls it performed, so that
theorems can speak about which device operations a call triggers.
-/

/-- NameVer mirrors tkeyclient's name/version reply (Name0/Name1; the code
ignores Version). -/
structure NameVer where
  name0 : String
  name1 : String
deriving DecidableEq, Repr

/-- DetectErr mirrors the outcomes of tkeyclient.DetectSerialPort: the
sentinel errors ErrNoDevice and ErrManyDevices, or any other failure. -/
inductive DetectErr where
  | noDevice
  | manyDevices
  | otherErr
deriving DecidableEq, Repr

/-- DevCall enumerates the Transport Adapter operations the session manager
can drive on the physical device. -/
inductive DevCall where
  | detectPort
  | openPort
  | getNameVersion
  | getAppNameVersion
  | getUDI
  | loadAppCall
  | getPubkeyCall
  | signCall
  | closeCall
deriving DecidableEq, Repr

instance {ε α : Type} [DecidableEq ε] [DecidableEq α] : DecidableEq (Except ε α) := fun a b =>
  match a, b with
  | Except.error x, Except.error y =>
    if h : x = y then isTrue (by rw [h]) else isFalse (fun hh => h (Except.error.inj hh))
  | Except.error _, Except.ok _ => isFalse (fun hh => Except.noConfusion hh)
  | Except.ok _, Except.error _ => isFalse (fun hh => Except.noConfusion hh)
  | Except.ok x, Except.ok y =>
    if h : x = y then isTrue (by rw [h]) else isFalse (fun hh => h (Except.ok.inj hh))

/-- World fixes the outcome of every external call for one scenario: the
serial-port discovery result, whether tk.Connect succeeds, the firmware and
app identity replies (none models a failed query), the USS sources, and the
device get-pubkey and sign results. -/
structure World where
  detectResult : Except DetectErr String
  openOk : Bool
  nameVer : Option NameVer
  appNameVer : Option NameVer
  udiOk : Bool
  secretOk : Bool
  fileReadOk : Bool
  loadOk : Bool
  pubkeyResult : Option (List Nat)
  signResult : Option (List Nat)
deriving DecidableEq, Repr

/-- SignerState mirrors the mutable fields of type Signer in signer.go:
the configuration (devPath, speed, enterUSS, fileUSS) and the session state
(connected flag, whether the idle-disconnect timer is armed, whether the
underlying transport handle is open). -/
structure SignerState where
  devPath : String
  speed : Nat
  enterUSS : Bool
  fileUSS : String
  connected : Bool
  timerArmed : Bool
  transportOpen : Bool
deriving DecidableEq, Repr

/-- The wanted firmware identity, constants wantFWName0/wantFWName1. -/
def wantFWName : NameVer := ⟨"tk1 ", "mkdf"⟩

/-- The wanted signer-app identity, constants wantAppName0/wantAppName1. -/
def wantAppName : NameVer := ⟨"tk1 ", "sign"⟩

/-- Signer.isFirmwareMode: GetNameVersion, treat a failed query as
not-firmware, else compare Name0/Name1 with the wanted firmware name. -/
def isFirmwareMode (w : World) : Bool :=
  match w.nameVer with
  | none => false
  | some nv => nv == wantFWName

/-- Signer.isWantedApp: GetAppNameVersion, treat a failed query as
not-wanted, else compare Name0/Name1 with the wanted app name. -/
def isWantedApp (w : World) : Bool :=
  match w.appNameVer with
  | none => false
  | some nv => nv == wantAppName

/-- Signer.closeNow: close the transport handle unconditionally (it does
not consult the connected flag or the idle timer). -/
def closeNow (s : SignerState) : SignerState :=
  { s with transportOpen := false }

/-- Signer.loadApp: acquire the USS (interactively after GetUDI when
enterUSS, from the file when fileUSS is set, else none) and LoadApp with
it; returns success and the device calls performed. -/
def loadApp (w : World) (s : SignerState) : Bool × List DevCall :=
  if s.enterUSS then
    if w.udiOk then
      if w.secretOk then
        (w.loadOk, [DevCall.getUDI, DevCall.loadAppCall])
      else (false, [DevCall.getUDI])
    else (false, [DevCall.getUDI])
  else if s.fileUSS ≠ "" then
    if w.fileReadOk then (w.loadOk, [DevCall.loadAppCall])
    else (false, [])
  else (w.loadOk, [DevCall.loadAppCall])

/-- ConnectOut packages the successor state, the boolean result of
Signer.connect and the Transport Adapter calls it performed. -/
structure ConnectOut where
  state : SignerState
  ok : Bool
  calls : List DevCall
deriving DecidableEq, Repr

/-- The port-resolution step of Signer.connect: use the configured devPath
when set, else DetectSerialPort. -/
def connectResolve (w : World) (s : SignerState) : Except DetectErr String × List DevCall :=
  if s.devPath = "" then (w.detectResult, [DevCall.detectPort])
  else (Except.ok s.devPath, [])

/-- The slow path of Signer.connect, entered when not already connected:
resolve the port, tk.Connect, query firmware identity, load the app when in
firmware mode (closing the transport on a failed load), then verify the app
identity (closing the transport when it does not match), and finally mark
connected. -/
def connectSlow (w : World) (s : SignerState) : ConnectOut :=
  match connectResolve w s with
  | (Except.error _, cs) => ⟨s, false, cs⟩
  | (Except.ok _, cs) =>
    if w.openOk = false then ⟨s, false, cs ++ [DevCall.openPort]⟩
    else
      let so := { s with transportOpen := true }
      if isFirmwareMode w then
        match loadApp w so with
        | (false, lcs) =>
          ⟨closeNow so, false, cs ++ [DevCall.openPort, DevCall.getNameVersion] ++ lcs⟩
        | (true, lcs) =>
          if isWantedApp w then
            ⟨{ so with connected := true }, true,
              cs ++ [DevCall.openPort, DevCall.getNameVersion] ++ lcs ++ [DevCall.getAppNameVersion]⟩
          else
            ⟨closeNow so, false,
              cs ++ [DevCall.openPort, DevCall.getNameVersion] ++ lcs ++ [DevCall.getAppNameVersion]⟩
      else
        if isWantedApp w then
          ⟨{ so with connected := true }, true,
            cs ++ [DevCall.openPort, DevCall.getNameVersion, DevCall.getAppNameVersion]⟩
        else
          ⟨closeNow so, false,
            cs ++ [DevCall.openPort, DevCall.getNameVersion, DevCall.getAppNameVersion]⟩

/-- Signer.connect: stop and drop any pending idle-disconnect timer, return
success immediately when already connected (fast path, no device calls),
else run the slow path. -/
def connect (w : World) (s : SignerState) : ConnectOut :=
  let s1 := { s with timerArmed := false }
  if s1.connected then ⟨s1, true, []⟩
  else connectSlow w s1

/-- Signer.disconnect: a no-op when not connected; otherwise stop any
existing idle timer and (re)arm a fresh one — the transport is never closed
synchronously here. -/
def disconnect (s : SignerState) : SignerState :=
  if s.connected then { s with timerArmed := true } else s

/-- The idle-timer callback of Signer.disconnect, as it runs when the timer
fires without having been stopped: closeNow, clear the connected flag, drop
the timer handle. A cancelled (unarmed) timer never runs. -/
def timerFire (s : SignerState) : SignerState :=
  if s.timerArmed then
    { s with transportOpen := false, connected := false, timerArmed := false }
  else s

/-- SignErr distinguishes the error values the facade Sign path can return:
the DetectSerialPort sentinels propagated by getSigner, the generic
connect-failed error, the message-must-not-be-hashed error, and the wrapped
device sign error. -/
inductive SignErr where
  | noDevice
  | manyDevices
  | otherDetect
  | connectFailed
  | notHashed
  | signFailed
deriving DecidableEq, Repr

/-- SignOut packages state, result and Transport Adapter calls of a sign
path. -/
structure SignOut where
  state : SignerState
  result : Except SignErr (List Nat)
  calls : List DevCall
deriving DecidableEq, Repr

/-- Signer.Sign (the crypto.Signer method): connect (fail with the generic
connect-failed error when it fails), defer disconnect, reject a non-zero
opts.HashFunc with the message-must-not-be-hashed error, else perform the
device sign call. hashFn models opts.HashFunc(); 0 is crypto.Hash(0). -/
def signerSign (w : World) (s : SignerState) (hashFn : Nat) (_message : List Nat) : SignOut :=
  match connect w s with
  | ⟨s1, false, cs⟩ => ⟨s1, Except.error SignErr.connectFailed, cs⟩
  | ⟨s1, true, cs⟩ =>
    if hashFn ≠ 0 then ⟨disconnect s1, Except.error SignErr.notHashed, cs⟩
    else
      match w.signResult with
      | none => ⟨disconnect s1, Except.error SignErr.signFailed, cs ++ [DevCall.signCall]⟩
      | some sig => ⟨disconnect s1, Except.ok sig, cs ++ [DevCall.signCall]⟩

/-- tkeyclient.SerialSpeed, the default serial speed the facade passes to
NewSigner. -/
def serialSpeed : Nat := 62500

/-- NewSigner as called for state purposes: a fresh Signer with the given
configuration, not yet connected, no timer, no open transport. -/
def newSigner (devPath : String) (speed : Nat) (enterUSS : Bool) (fileUSS : String) : SignerState :=
  { devPath := devPath, speed := speed, enterUSS := enterUSS, fileUSS := fileUSS,
    connected := false, timerArmed := false, transportOpen := false }

/-- GetSignerOut packages the facade singleton after getSigner: the new
value of existingSigner, the result (ok means existingSigner now holds the
signer to use), the Transport Adapter calls performed, and, when the cached
signer was replaced by a newly constructed one, the state the replaced
signer was left in at that moment. -/
structure GetSignerOut where
  global : Option SignerState
  result : Except DetectErr Unit
  calls : List DevCall
  replaced : Option SignerState
deriving DecidableEq, Repr

/-- The fresh-construction tail of getSigner: DetectSerialPort (propagating
its error unchanged and leaving existingSigner as it was), else NewSigner
with the detected port, the default speed, enterUSS true and no USS file,
and store it as the new existingSigner. -/
def getSignerFresh (w : World) (old : Option SignerState) (cs : List DevCall) : GetSignerOut :=
  match w.detectResult with
  | Except.error e => ⟨old, Except.error e, cs ++ [DevCall.detectPort], none⟩
  | Except.ok p =>
    ⟨some (newSigner p serialSpeed true ""), Except.ok (), cs ++ [DevCall.detectPort], old⟩

/-- getSigner of the facade: when existingSigner is set, reuse it if
existingSigner.connect() succeeds and existingSigner.isWantedApp() still
reports the wanted app (one extra app-identity device query); otherwise
fall through to detecting a port and constructing a replacement signer. -/
def getSigner (w : World) (g : Option SignerState) : GetSignerOut :=
  match g with
  | none => getSignerFresh w none []
  | some s =>
    match connect w s with
    | ⟨s1, true, cs⟩ =>
      if isWantedApp w then ⟨some s1, Except.ok (), cs ++ [DevCall.getAppNameVersion], none⟩
      else getSignerFresh w (some s1) (cs ++ [DevCall.getAppNameVersion])
    | ⟨s1, false, cs⟩ => getSignerFresh w (some s1) cs

/-- Map a DetectSerialPort error propagated by getSigner into the facade
Sign error domain (the error value itself is passed through unchanged in
the code; the constructors stay distinct). -/
def mapDetectErr : DetectErr → SignErr
  | DetectErr.noDevice => SignErr.noDevice
  | DetectErr.manyDevices => SignErr.manyDevices
  | DetectErr.otherErr => SignErr.otherDetect

/-- FacadeSignOut packages the singleton, result and Transport Adapter
calls of one facade Sign call. -/
structure FacadeSignOut where
  global : Option SignerState
  result : Except SignErr (List Nat)
  calls : List DevCall
deriving DecidableEq, Repr

/-- The package-level facade Sign(msg): getSigner (propagating a detect
error), signer.connect() (generic connect-failed error on failure), defer
signer.disconnect(), then signer.Sign(nil, msg, crypto.Hash(0)) whose error
is propagated unchanged. -/
def facadeSign (w : World) (g : Option SignerState) (message : List Nat) : FacadeSignOut :=
  match getSigner w g with
  | ⟨g1, Except.error e, gcs, _⟩ => ⟨g1, Except.error (mapDetectErr e), gcs⟩
  | ⟨g1, Except.ok _, gcs, _⟩ =>
    match g1 with
    | none => ⟨none, Except.error SignErr.connectFailed, gcs⟩
    | some s =>
      match connect w s with
      | ⟨s1, false, cs⟩ => ⟨some s1, Except.error SignErr.connectFailed, gcs ++ cs⟩
      | ⟨s1, true, cs⟩ =>
        match signerSign w s1 0 message with
        | ⟨s2, r, scs⟩ => ⟨some (disconnect s2), r, gcs ++ cs ++ scs⟩

/-- PubKeyErr distinguishes the error values the facade GetTkeyPubKey path
can return. -/
inductive PubKeyErr where
  | noDevice
  | manyDevices
  | otherDetect
  | connectFailed
  | getPubkeyFailed
deriving DecidableEq, Repr

/-- Map a DetectSerialPort error propagated by getSigner into the facade
GetTkeyPubKey error domain. -/
def mapDetectErrPub : DetectErr → PubKeyErr
  | DetectErr.noDevice => PubKeyErr.noDevice
  | DetectErr.manyDevices => PubKeyErr.manyDevices
  | DetectErr.otherErr => PubKeyErr.otherDetect

/-- Signer.printAuthorizedKey: connect (just return on failure), defer
disconnect, GetPubkey (the result only affects what is printed), build and
print the ssh key. -/
def printAuthorizedKey (w : World) (s : SignerState) : SignerState × List DevCall :=
  match connect w s with
  | ⟨s1, false, cs⟩ => (s1, cs)
  | ⟨s1, true, cs⟩ => (disconnect s1, cs ++ [DevCall.getPubkeyCall])

/-- FacadePubOut packages the singleton, result and Transport Adapter calls
of one facade GetTkeyPubKey call. -/
structure FacadePubOut where
  global : Option SignerState
  result : Except PubKeyErr (List Nat)
  calls : List DevCall
deriving DecidableEq, Repr

/-- The package-level facade GetTkeyPubKey(): getSigner (propagating a
detect error), signer.connect(), defer signer.disconnect(), the GetPubkey
device call (its error propagated unchanged), then printAuthorizedKey. -/
def getTkeyPubKey (w : World) (g : Option SignerState) : FacadePubOut :=
  match getSigner w g with
  | ⟨g1, Except.error e, gcs, _⟩ => ⟨g1, Except.error (mapDetectErrPub e), gcs⟩
  | ⟨g1, Except.ok _, gcs, _⟩ =>
    match g1 with
    | none => ⟨none, Except.error PubKeyErr.connectFailed, gcs⟩
    | some s =>
      match connect w s with
      | ⟨s1, false, cs⟩ => ⟨some s1, Except.error PubKeyErr.connectFailed, gcs ++ cs⟩
      | ⟨s1, true, cs⟩ =>
        match w.pubkeyResult with
        | none =>
          ⟨some (disconnect s1), Except.error PubKeyErr.getPubkeyFailed,
            gcs ++ cs ++ [DevCall.getPubkeyCall]⟩
        | some pub =>
          match printAuthorizedKey w s1 with
          | (s2, pcs) =>
            ⟨some (disconnect s2), Except.ok pub,
              gcs ++ cs ++ [DevCall.getPubkeyCall] ++ pcs⟩

/-- Stmt is the static call-site model used for the lock-discipline
analysis: acquiring and releasing s.mu, and a Transport Adapter call. Each
body below transcribes, in source order, the mutex operations and the
device operations a function of signer.go can perform (device operations on
all branches are listed). -/
inductive Stmt where
  | lockMu
  | unlockMu
  | dev (c : DevCall)
deriving DecidableEq, Repr

/-- Fold over a body computing, for each device operation, whether the
session mutex is held at that point. -/
def devOpsWithGuard (body : List Stmt) : List (DevCall × Bool) :=
  (body.foldl
    (fun (acc : List (DevCall × Bool) × Nat) st =>
      match st with
      | Stmt.lockMu => (acc.1, acc.2 + 1)
      | Stmt.unlockMu => (acc.1, acc.2 - 1)
      | Stmt.dev c => (acc.1 ++ [(c, decide (0 < acc.2))], acc.2))
    ([], 0)).1

/-- Signer.connect: mu.Lock / defer mu.Unlock around the whole body;
inside, in order over all branches: DetectSerialPort, tk.Connect,
GetNameVersion, GetUDI, LoadApp, GetAppNameVersion, and the closeNow on the
failure paths. -/
def connectBody : List Stmt :=
  [Stmt.lockMu, Stmt.dev DevCall.detectPort, Stmt.dev DevCall.openPort,
   Stmt.dev DevCall.getNameVersion, Stmt.dev DevCall.getUDI,
   Stmt.dev DevCall.loadAppCall, Stmt.dev DevCall.getAppNameVersion,
   Stmt.dev DevCall.closeCall, Stmt.unlockMu]

/-- Signer.disconnect: mu.Lock / defer mu.Unlock; it only manipulates the
timer handle, no device operation. -/
def disconnectBody : List Stmt := [Stmt.lockMu, Stmt.unlockMu]

/-- The idle-timer callback in Signer.disconnect: mu.Lock / defer
mu.Unlock around closeNow and the state reset. -/
def timerCallbackBody : List Stmt := [Stmt.lockMu, Stmt.dev DevCall.closeCall, Stmt.unlockMu]

/-- The interrupt/SIGTERM handler registered in NewSigner: it calls
signer.closeNow() directly, without touching s.mu. -/
def signalHandlerBody : List Stmt := [Stmt.dev DevCall.closeCall]

/-- Signer.Sign: connect (locking internally), then the device sign call
after connect has returned (mutex released), then the deferred
disconnect. -/
def signMethodBody : List Stmt :=
  connectBody ++ [Stmt.dev DevCall.signCall] ++ disconnectBody

/-- The facade GetTkeyPubKey (and Signer.printAuthorizedKey/Public, which
share the shape): connect, then signer.tkSigner.GetPubkey() after connect
has returned (mutex released), then the deferred disconnect. -/
def getPubKeyFacadeBody : List Stmt :=
  connectBody ++ [Stmt.dev DevCall.getPubkeyCall] ++ disconnectBody

/-- The health check in the facade getSigner: existingSigner.connect()
followed by existingSigner.isWantedApp(), whose GetAppNameVersion device
query runs after connect has returned (mutex released). -/
def getSignerHealthCheckBody : List Stmt :=
  connectBody ++ [Stmt.dev DevCall.getAppNameVersion]

/-- HandlerStep models one step of a registered signal handler: the
forced transport close, or calling the exit function with a code. -/
inductive HandlerStep where
  | closeTransport
  | exitProcess (code : Nat)
deriving DecidableEq, Repr

/-- The handler NewSigner registers for os.Interrupt and syscall.SIGTERM:
signer.closeNow() and then exitFunc(1), in that order. -/
def interruptTermHandler : List HandlerStep :=
  [HandlerStep.closeTransport, HandlerStep.exitProcess 1]

/-- The handler NewSigner registers for syscall.SIGHUP: an explicit no-op,
no steps at all. -/
def hupHandler : List HandlerStep := []

/-- Run the state effect of a signal handler: closeTransport is closeNow;
the exit step does not touch the session state. -/
def runHandlerSteps (steps : List HandlerStep) (s : SignerState) : SignerState :=
  steps.foldl
    (fun st h =>
      match h with
      | HandlerStep.closeTransport => closeNow st
      | HandlerStep.exitProcess _ => st) s

/-- The exit function the facade getSigner installs: os.Exit(0) whatever
code the handler passes. -/
def facadeExitCode (_code : Nat) : Nat := 0

/-
Concrete scenario worlds and states used by the theorems below.
-/

/-- A world where everything succeeds: one device detected, transport
opens, device is in firmware mode, USS prompt and app load succeed, the
wanted app then answers, and both device operations succeed. -/
def goodWorld : World :=
  { detectResult := Except.ok "/dev/ttyACM0", openOk := true,
    nameVer := some wantFWName, appNameVer := some wantAppName,
    udiOk := true, secretOk := true, fileReadOk := true, loadOk := true,
    pubkeyResult := some [1, 2, 3], signResult := some [4, 5, 6] }

/-- goodWorld except the transport open (tk.Connect) fails. -/
def wOpenFail : World := { goodWorld with openOk := false }

/-- goodWorld except the device, in firmware mode with a successful app
load, still answers the app-identity query with the wrong name. -/
def wWrongApp : World := { goodWorld with appNameVer := some ⟨"tk1 ", "othr"⟩ }

/-- goodWorld except the app load fails. -/
def wLoadFail : World := { goodWorld with loadOk := false }

/-- goodWorld except the USS prompt fails. -/
def wSecretFail : World := { goodWorld with secretOk := false }

/-- goodWorld except the device sign call fails. -/
def wSignFail : World := { goodWorld with signResult := none }

/-- goodWorld except the device get-pubkey call fails. -/
def wPubkeyFail : World := { goodWorld with pubkeyResult := none }

/-- A world where serial-port discovery finds no device. -/
def wNoDevice : World := { goodWorld with detectResult := Except.error DetectErr.noDevice }

/-- A world where serial-port discovery finds more than one device. -/
def wManyDevices : World := { goodWorld with detectResult := Except.error DetectErr.manyDevices }

/-- goodWorld except the app-identity query fails (for the getSigner
health check on a cached connected signer). -/
def wHealthFail : World := { goodWorld with appNameVer := none }

/-- The signer the facade constructs on first use: detected port, default
speed, enterUSS true, no USS file. -/
def signer0 : SignerState := newSigner "/dev/ttyACM0" serialSpeed true ""

/-- signer0 after a successful connect: transport open and marked
connected, no pending timer. -/
def connectedSigner : SignerState :=
  { signer0 with connected := true, transportOpen := true }

/-- connectedSigner with the idle-disconnect timer pending (after a facade
call returned and its deferred disconnect armed the timer). -/
def connectedSignerIdle : SignerState := { connectedSigner with timerArmed := true }

/-- The session state the facade singleton is left in when a device
operation fails after a successful connect: still connected, transport
open, idle timer armed. -/
def signerAfterFailedSign : SignerState :=
  { signer0 with connected := true, transportOpen := true, timerArmed := true }

/-
Helper lemmas about connect shared by the claim theorems.
-/

/-- The fast path of connect: on an already-connected session it only drops
the timer, reports success and performs no device calls. -/
theorem connect_fastPath (w : World) (s : SignerState) (hs : s.connected = true) :
    connect w s = ⟨{ s with timerArmed := false }, true, []⟩ := by
  simp [connect, hs]

/-- Port resolution never emits the device sign call. -/
theorem connectResolve_no_signCall (w : World) (s : SignerState) :
    DevCall.signCall ∉ (connectResolve w s).2 := by
  unfold connectResolve
  split <;> simp

/-- loadApp never emits the device sign call. -/
theorem loadApp_no_signCall (w : World) (s : SignerState) :
    DevCall.signCall ∉ (loadApp w s).2 := by
  unfold loadApp
  (repeat' split) <;> simp

/-- Structural facts about the slow path of connect: it leaves the timer
field untouched; on failure it leaves the connected flag as it was and (if
the transport was closed before) leaves the transport closed; and it never
emits the device sign call. -/
theorem connectSlow_spec (w : World) (s : SignerState) :
    (connectSlow w s).state.timerArmed = s.timerArmed ∧
    ((connectSlow w s).ok = false → (connectSlow w s).state.connected = s.connected) ∧
    ((connectSlow w s).ok = false → s.transportOpen = false →
      (connectSlow w s).state.transportOpen = false) ∧
    DevCall.signCall ∉ (connectSlow w s).calls := by
  have hres := connectResolve_no_signCall w s
  have hload := loadApp_no_signCall w { s with transportOpen := true }
  unfold connectSlow
  rcases hr : connectResolve w s with ⟨r, cs⟩
  rw [hr] at hres
  rcases hl : loadApp w { s with transportOpen := true } with ⟨lok, lcs⟩
  rw [hl] at hload
  simp only at hres hload
  cases r with
  | error e => simp_all
  | ok p =>
    by_cases ho : w.openOk = false
    · simp_all
    · simp only [ho, if_false]
      by_cases hfw : isFirmwareMode w
      · simp only [hfw, if_true]
        rw [hl]
        cases lok with
        | false => simp_all [closeNow]
        | true =>
          by_cases hwa : isWantedApp w <;> simp_all [closeNow]
      · simp only [hfw, if_false]
        by_cases hwa : isWantedApp w <;> simp_all [closeNow]

/-- connect always returns with the idle timer disarmed (the Stop happens
before anything else on both paths). -/
theorem connect_timerArmed (w : World) (s : SignerState) :
    (connect w s).state.timerArmed = false := by
  by_cases hs : s.connected = true
  · simp [connect_fastPath w s hs]
  · simp only [connect]
    have h1 := (connectSlow_spec w { s with timerArmed := false }).1
    simp_all

/-- A failed connect leaves the session unconnected. -/
theorem connect_failed_connected (w : World) (s : SignerState)
    (h : (connect w s).ok = false) :
    (connect w s).state.connected = false := by
  by_cases hs : s.connected = true
  · rw [connect_fastPath w s hs] at h
    cases h
  · simp only [connect] at h ⊢
    have h2 := (connectSlow_spec w { s with timerArmed := false }).2.1
    simp_all

/-- A failed connect on a session whose transport was closed leaves the
transport closed. -/
theorem connect_failed_transport (w : World) (s : SignerState)
    (h : (connect w s).ok = false) (ht : s.transportOpen = false) :
    (connect w s).state.transportOpen = false := by
  by_cases hs : s.connected = true
  · rw [connect_fastPath w s hs] at h
    cases h
  · simp only [connect] at h ⊢
    have h2 := (connectSlow_spec w { s with timerArmed := false }).2.2.1
    simp_all

/-- connect never performs the device sign call. -/
theorem connect_no_signCall (w : World) (s : SignerState) :
    DevCall.signCall ∉ (connect w s).calls := by
  by_cases hs : s.connected = true
  · simp [connect_fastPath w s hs]
  · simp only [connect]
    have h2 := (connectSlow_spec w { s with timerArmed := false }).2.2.2
    simp_all

/-- loadApp only inspects the USS configuration, so the timer/transport
updates made by connect do not change its outcome. -/
theorem loadApp_config (w : World) (s : SignerState) :
    loadApp w { { s with timerArmed := false } with transportOpen := true } = loadApp w s := rfl

/-- A successful connectSlow has marked the session connected. -/
theorem connectSlow_ok_connected (w : World) (s : SignerState)
    (h : (connectSlow w s).ok = true) :
    (connectSlow w s).state.connected = true := by
  unfold connectSlow at h ⊢
  rcases hr : connectResolve w s with ⟨r, cs⟩
  rw [hr] at h
  rcases hl : loadApp w { s with transportOpen := true } with ⟨lok, lcs⟩
  cases r with
  | error e => simp at h
  | ok p =>
    by_cases ho : w.openOk = false
    · simp [ho] at h
    · by_cases hfw : isFirmwareMode w
      · cases lok with
        | false => simp [ho, hfw, hl] at h
        | true =>
          by_cases hwa : isWantedApp w
          · simp [ho, hfw, hl, hwa]
          · simp [ho, hfw, hl, hwa] at h
      · by_cases hwa : isWantedApp w
        · simp [ho, hfw, hwa]
        · simp [ho, hfw, hwa] at h

/-- A successful connect has marked the session connected. -/
theorem connect_ok_connected (w : World) (s : SignerState)
    (h : (connect w s).ok = true) :
    (connect w s).state.connected = true := by
  by_cases hs : s.connected = true
  · simp [connect_fastPath w s hs, hs]
  · simp only [connect] at h ⊢
    have h2 := connectSlow_ok_connected w { s with timerArmed := false }
    simp_all

/-- Signer.Sign on a connected session with the zero hash always reaches
the device sign call and never produces the not-hashed error. -/
theorem signerSign_zero_spec (w : World) (s : SignerState) (message : List Nat)
    (hs : s.connected = true) :
    DevCall.signCall ∈ (signerSign w s 0 message).calls ∧
    (signerSign w s 0 message).result ≠ Except.error SignErr.notHashed := by
  unfold signerSign
  rw [connect_fastPath w s hs]
  rcases hsr : w.signResult with _ | sig <;> simp [hsr]

/-- The slow path of connect, when the port is configured, the transport
opens, any required app load succeeds, but the app-identity check reports a
non-matching application: it fails with the transport closed and the
connected flag untouched. -/
theorem connectSlow_wrongApp (w : World) (s : SignerState)
    (hp : s.devPath ≠ "") (ho : w.openOk = true)
    (hl : isFirmwareMode w = true → (loadApp w { s with transportOpen := true }).1 = true)
    (hw : isWantedApp w = false) :
    (connectSlow w s).ok = false ∧
    (connectSlow w s).state.transportOpen = false ∧
    (connectSlow w s).state.connected = s.connected := by
  have hres : connectResolve w s = (Except.ok s.devPath, []) := by
    simp [connectResolve, hp]
  unfold connectSlow
  rw [hres]
  rcases hla : loadApp w { s with transportOpen := true } with ⟨lok, lcs⟩
  by_cases hfw : isFirmwareMode w
  · have hlt := hl hfw
    rw [hla] at hlt
    have hlt2 : lok = true := hlt
    subst hlt2
    simp [ho, hfw, hw, hla, closeNow]
  · simp [ho, hfw, hw, hla, closeNow]

/-- Claim C6: whenever the post-load app-identity check reports a
non-matching application (in particular when the device was in firmware
mode and the app load itself succeeded), connect fails and returns with the
transport closed and the session unconnected — no lingering open handle. -/
theorem c6_wrong_app_closes (w : World) (s : SignerState)
    (hcn : s.connected = false) (hp : s.devPath ≠ "") (ho : w.openOk = true)
    (hl : isFirmwareMode w = true → (loadApp w s).1 = true)
    (hw : isWantedApp w = false) :
    (connect w s).ok = false ∧
    (connect w s).state.transportOpen = false ∧
    (connect w s).state.connected = false := by
  have hcon : connect w s = connectSlow w { s with timerArmed := false } := by
    simp [connect, hcn]
  have hl2 : isFirmwareMode w = true →
      (loadApp w { { s with timerArmed := false } with transportOpen := true }).1 = true := by
    intro hfw
    rw [loadApp_config]
    exact hl hfw
  have h3 := connectSlow_wrongApp w { s with timerArmed := false } hp ho hl2 hw
  rw [hcon]
  refine ⟨h3.1, h3.2.1, ?_⟩
  rw [h3.2.2]
  exact hcn

/-- Witness for C6 at a concrete input: firmware mode, successful load,
wrong app identity afterwards. -/
theorem c6_witness :
    signer0.connected = false ∧ signer0.devPath ≠ "" ∧ wWrongApp.openOk = true ∧
    isWantedApp wWrongApp = false ∧ isFirmwareMode wWrongApp = true ∧
    ((connect wWrongApp signer0).ok = false ∧
     (connect wWrongApp signer0).state.transportOpen = false ∧
     (connect wWrongApp signer0).state.connected = false) :=
  ⟨rfl, by decide, rfl, by decide, by decide,
   c6_wrong_app_closes wWrongApp signer0 rfl (by decide) rfl (fun _ => by decide) (by decide)⟩

/-- Claim C7: Disconnect never closes the transport synchronously — on a
connected session it only (re)arms the idle timer; the close and the
clearing of the connected flag happen exactly when an armed timer fires,
and connect always returns with the timer disarmed, so an intervening
connect prevents the close (an unarmed timer firing is a no-op). -/
theorem c7_idle_timer :
    (∀ s : SignerState, s.connected = true → disconnect s = { s with timerArmed := true }) ∧
    (∀ s : SignerState, (disconnect s).transportOpen = s.transportOpen ∧
      (disconnect s).connected = s.connected) ∧
    (∀ s : SignerState, s.timerArmed = true →
      timerFire s = { s with connected := false, transportOpen := false, timerArmed := false }) ∧
    (∀ s : SignerState, s.timerArmed = false → timerFire s = s) ∧
    (∀ (w : World) (s : SignerState), (connect w s).state.timerArmed = false) := by
  refine ⟨?_, ?_, ?_, ?_, connect_timerArmed⟩
  · intro s hs
    simp [disconnect, hs]
  · intro s
    unfold disconnect
    split <;> simp
  · intro s hs
    simp [timerFire, hs]
  · intro s hs
    simp [timerFire, hs]

/-- Witness for C7 at concrete states. -/
theorem c7_witness :
    disconnect connectedSigner = { connectedSigner with timerArmed := true } ∧
    timerFire connectedSignerIdle = closeNow { connectedSignerIdle with connected := false, timerArmed := false } ∧
    timerFire connectedSigner = connectedSigner ∧
    (connect goodWorld connectedSignerIdle).state.timerArmed = false :=
  ⟨c7_idle_timer.1 connectedSigner rfl,
   c7_idle_timer.2.2.1 connectedSignerIdle rfl,
   c7_idle_timer.2.2.2.1 connectedSigner rfl,
   c7_idle_timer.2.2.2.2 goodWorld connectedSignerIdle⟩

/-- Claim C8: the interrupt/termination handler force-closes the transport
(ignoring any armed idle timer) strictly before invoking the process-exit
step, and the hang-up handler is an explicit no-op with no teardown. -/
theorem c8_signal_teardown :
    hupHandler = [] ∧
    interruptTermHandler.indexOf HandlerStep.closeTransport <
      interruptTermHandler.indexOf (HandlerStep.exitProcess 1) ∧
    HandlerStep.closeTransport ∈ interruptTermHandler ∧
    (∀ s : SignerState, runHandlerSteps interruptTermHandler s = closeNow s) ∧
    (∀ s : SignerState, s.timerArmed = true →
      (runHandlerSteps interruptTermHandler s).transportOpen = false) := by
  refine ⟨rfl, by decide, by decide, ?_, ?_⟩
  · intro s
    rfl
  · intro s _
    rfl

/-- Witness for C8: the handler closes the transport of a session with an
armed idle timer. -/
theorem c8_witness :
    runHandlerSteps interruptTermHandler connectedSignerIdle = closeNow connectedSignerIdle ∧
    (runHandlerSteps interruptTermHandler connectedSignerIdle).transportOpen = false :=
  ⟨c8_signal_teardown.2.2.2.1 connectedSignerIdle,
   c8_signal_teardown.2.2.2.2 connectedSignerIdle rfl⟩

/-- Claim C10: the facade Sign always passes the zero (unhashed) hash to
Signer.Sign, so the pre-hashed rejection branch is unreachable through the
facade: the result is never the not-hashed error, and unless the call
already failed at detection or connect, the device sign call is reached. -/
theorem c10_facade_never_prehash (w : World) (g : Option SignerState) (message : List Nat) :
    (facadeSign w g message).result ≠ Except.error SignErr.notHashed ∧
    ((facadeSign w g message).result = Except.error SignErr.noDevice ∨
     (facadeSign w g message).result = Except.error SignErr.manyDevices ∨
     (facadeSign w g message).result = Except.error SignErr.otherDetect ∨
     (facadeSign w g message).result = Except.error SignErr.connectFailed ∨
     DevCall.signCall ∈ (facadeSign w g message).calls) := by
  rcases hgs : getSigner w g with ⟨g1, r, gcs, rep⟩
  cases r with
  | error e => cases e <;> simp [facadeSign, hgs, mapDetectErr]
  | ok u =>
    cases g1 with
    | none => simp [facadeSign, hgs]
    | some s =>
      rcases hc : connect w s with ⟨s1, ok1, cs1⟩
      cases ok1 with
      | false => simp [facadeSign, hgs, hc]
      | true =>
        have hs1 : s1.connected = true := by
          have h2 := connect_ok_connected w s (by rw [hc])
          rw [hc] at h2
          exact h2
        have hz := signerSign_zero_spec w s1 message hs1
        rcases hss : signerSign w s1 0 message with ⟨s2, r2, scs⟩
        rw [hss] at hz
        simp only at hz
        simp [facadeSign, hgs, hc, hss, hz.1, hz.2]

/-- Witness for C10 at a concrete input. -/
theorem c10_witness :
    (facadeSign goodWorld none [1]).result ≠ Except.error SignErr.notHashed ∧
    ((facadeSign goodWorld none [1]).result = Except.error SignErr.noDevice ∨
     (facadeSign goodWorld none [1]).result = Except.error SignErr.manyDevices ∨
     (facadeSign goodWorld none [1]).result = Except.error SignErr.otherDetect ∨
     (facadeSign goodWorld none [1]).result = Except.error SignErr.connectFailed ∨
     DevCall.signCall ∈ (facadeSign goodWorld none [1]).calls) :=
  c10_facade_never_prehash goodWorld none [1]

/-- Counterexample to claim C1: two different failure kinds — the
transport open failing, and the device running the wrong application after
a successful firmware-mode load — are reported by the facade Sign as the
same generic connect-failed error value, not as distinct inspectable
kinds. -/
theorem c1_counterexample :
    wOpenFail ≠ wWrongApp ∧
    (facadeSign wOpenFail none [1]).result = Except.error SignErr.connectFailed ∧
    (facadeSign wWrongApp none [1]).result = Except.error SignErr.connectFailed := by
  refine ⟨by decide, by decide, by decide⟩

/-- Claim C1 as amended: the detection errors (no device, many devices)
propagate as distinct sentinel error values, a failed device sign call and
a failed device get-pubkey call surface as their own distinct errors, but
every connect-phase failure — transport open, app load, secret
acquisition, wrong application — collapses into the single generic
connect-failed error. -/
theorem c1_amended :
    (∀ (w : World) (message : List Nat), w.detectResult = Except.error DetectErr.noDevice →
      (facadeSign w none message).result = Except.error SignErr.noDevice) ∧
    (∀ (w : World) (message : List Nat), w.detectResult = Except.error DetectErr.manyDevices →
      (facadeSign w none message).result = Except.error SignErr.manyDevices) ∧
    (facadeSign wSignFail none [1]).result = Except.error SignErr.signFailed ∧
    (getTkeyPubKey wPubkeyFail none).result = Except.error PubKeyErr.getPubkeyFailed ∧
    ((facadeSign wOpenFail none [1]).result = Except.error SignErr.connectFailed ∧
     (facadeSign wLoadFail none [1]).result = Except.error SignErr.connectFailed ∧
     (facadeSign wSecretFail none [1]).result = Except.error SignErr.connectFailed ∧
     (facadeSign wWrongApp none [1]).result = Except.error SignErr.connectFailed) := by
  refine ⟨?_, ?_, by decide, by decide, by decide, by decide, by decide, by decide⟩
  · intro w message hd
    simp [facadeSign, getSigner, getSignerFresh, hd, mapDetectErr]
  · intro w message hd
    simp [facadeSign, getSigner, getSignerFresh, hd, mapDetectErr]

/-- Witness for C1 as amended, at the two detection-failure worlds. -/
theorem c1_witness :
    (facadeSign wNoDevice none [1]).result = Except.error SignErr.noDevice ∧
    (facadeSign wManyDevices none [1]).result = Except.error SignErr.manyDevices :=
  ⟨c1_amended.1 wNoDevice [1] rfl, c1_amended.2.1 wManyDevices [1] rfl⟩

/-- Counterexample to claim C2: calling Signer.Sign with a non-zero hash
option on a disconnected session does fail with the not-hashed error, but
the Transport Adapter is reached first — the connect performed at the top
of Sign opens the transport and performs identity and load calls. -/
theorem c2_counterexample :
    (signerSign goodWorld signer0 1 [1]).result = Except.error SignErr.notHashed ∧
    DevCall.openPort ∈ (signerSign goodWorld signer0 1 [1]).calls ∧
    DevCall.getNameVersion ∈ (signerSign goodWorld signer0 1 [1]).calls := by
  refine ⟨by decide, by decide, by decide⟩

/-- Claim C2 as amended: when connect succeeds, Sign with a non-zero hash
option fails with the not-hashed error and never performs the device sign
call, but its Transport Adapter activity is exactly that of the connect
performed at the top of Sign (which does reach the adapter when the
session was not already connected). -/
theorem c2_amended (w : World) (s : SignerState) (hashFn : Nat) (message : List Nat)
    (hh : hashFn ≠ 0) (hc : (connect w s).ok = true) :
    (signerSign w s hashFn message).result = Except.error SignErr.notHashed ∧
    (signerSign w s hashFn message).calls = (connect w s).calls ∧
    DevCall.signCall ∉ (signerSign w s hashFn message).calls := by
  have hns := connect_no_signCall w s
  unfold signerSign
  rcases hcc : connect w s with ⟨s1, ok1, cs⟩
  rw [hcc] at hc hns
  simp only at hc
  subst hc
  simp [hh]
  exact hns

/-- Witness for C2 as amended: a non-zero hash on an already-connected
session. -/
theorem c2_witness :
    (2 : Nat) ≠ 0 ∧ (connect goodWorld connectedSigner).ok = true ∧
    ((signerSign goodWorld connectedSigner 2 [7]).result = Except.error SignErr.notHashed ∧
     (signerSign goodWorld connectedSigner 2 [7]).calls =
       (connect goodWorld connectedSigner).calls ∧
     DevCall.signCall ∉ (signerSign goodWorld connectedSigner 2 [7]).calls) :=
  ⟨by decide, rfl, c2_amended goodWorld connectedSigner 2 [7] (by decide) rfl⟩

/-- Counterexample to claim C4: the device sign call in Signer.Sign runs
after connect has returned and released the mutex, and the forced close in
the signal handler never takes the mutex — so not every device-driving
operation holds the session guard. -/
theorem c4_counterexample :
    (DevCall.signCall, false) ∈ devOpsWithGuard signMethodBody ∧
    (DevCall.closeCall, false) ∈ devOpsWithGuard signalHandlerBody := by
  refine ⟨by decide, by decide⟩

/-- Claim C4 as amended: the device operations inside connect, and the
close in the idle-timer callback, run while holding the session mutex (and
disconnect touches no device), but the device sign call of Signer.Sign,
the get-pubkey call of the facade, the app-identity health-check query in
getSigner, and the signal-handler forced close all run without holding the
guard — so the Transport Adapter is not serialized for them. -/
theorem c4_amended :
    (devOpsWithGuard connectBody).all (fun p => p.2) = true ∧
    (devOpsWithGuard timerCallbackBody).all (fun p => p.2) = true ∧
    devOpsWithGuard disconnectBody = [] ∧
    (DevCall.signCall, false) ∈ devOpsWithGuard signMethodBody ∧
    (DevCall.getPubkeyCall, false) ∈ devOpsWithGuard getPubKeyFacadeBody ∧
    (DevCall.getAppNameVersion, false) ∈ devOpsWithGuard getSignerHealthCheckBody ∧
    (DevCall.closeCall, false) ∈ devOpsWithGuard signalHandlerBody := by
  refine ⟨by decide, by decide, by decide, by decide, by decide, by decide, by decide⟩

/-- Counterexample to claim C3: when the cached connected signer passes
connect (fast path) but the getSigner app-identity health check fails, the
singleton is replaced by a freshly constructed signer while the replaced
session is left marked connected with its transport still open — it
remains live alongside the replacement. -/
theorem c3_counterexample :
    (getSigner wHealthFail (some connectedSigner)).replaced = some connectedSigner ∧
    (getSigner wHealthFail (some connectedSigner)).global = some signer0 ∧
    connectedSigner.connected = true ∧
    connectedSigner.transportOpen = true ∧
    signer0 ≠ connectedSigner := by
  refine ⟨by decide, by decide, rfl, rfl, by decide⟩

/-- Claim C3 as amended: the singleton is created lazily on first use, and
when replacement is triggered by a failed connect the replaced session is
not connected; but when replacement is triggered by the app-identity
health check failing after a successful connect, the replaced session
stays marked connected (its transport is not torn down) alongside the new
singleton. -/
theorem c3_amended :
    ((getSigner goodWorld none).global = some signer0 ∧
     (getSigner goodWorld none).replaced = none) ∧
    (∀ (w : World) (s r : SignerState), (connect w s).ok = false →
      (getSigner w (some s)).replaced = some r → r.connected = false) ∧
    (∀ (w : World) (s : SignerState) (p : String), s.connected = true →
      isWantedApp w = false → w.detectResult = Except.ok p →
      (getSigner w (some s)).replaced = some { s with timerArmed := false } ∧
      (getSigner w (some s)).global = some (newSigner p serialSpeed true "")) := by
  refine ⟨⟨by decide, by decide⟩, ?_, ?_⟩
  · intro w s r hok hrep
    have hcc := connect_failed_connected w s hok
    rcases hc : connect w s with ⟨s1, ok1, cs⟩
    rw [hc] at hok hcc
    simp only at hok hcc
    cases ok1 with
    | true => cases hok
    | false =>
      simp only [getSigner, hc, getSignerFresh] at hrep
      rcases hd : w.detectResult with e | p <;> rw [hd] at hrep <;> simp at hrep
      rw [← hrep]
      exact hcc
  · intro w s p hs hw hd
    simp [getSigner, connect_fastPath w s hs, hw, getSignerFresh, hd]

/-- Witness for C3 as amended: a failed connect leaves the replaced
session unconnected, and the failed health check on a live cached session
replaces it while it is still connected. -/
theorem c3_witness :
    signer0.connected = false ∧
    ((getSigner wHealthFail (some connectedSigner)).replaced =
        some { connectedSigner with timerArmed := false } ∧
     (getSigner wHealthFail (some connectedSigner)).global =
        some (newSigner "/dev/ttyACM0" serialSpeed true "")) :=
  ⟨c3_amended.2.1 wOpenFail signer0 signer0 rfl rfl,
   c3_amended.2.2 wHealthFail connectedSigner "/dev/ttyACM0" rfl rfl rfl⟩

/-- Counterexample to claim C5: a second facade call made while the
session is still marked connected does re-invoke an app-identity query on
the device — the getSigner health check performs GetAppNameVersion on
every facade call, even though connect itself takes the fast path. -/
theorem c5_counterexample :
    connectedSignerIdle.connected = true ∧
    (facadeSign goodWorld (some connectedSignerIdle) [1]).result = Except.ok [4, 5, 6] ∧
    DevCall.getAppNameVersion ∈ (facadeSign goodWorld (some connectedSignerIdle) [1]).calls := by
  refine ⟨rfl, by decide, by decide⟩

/-- Claim C5 as amended: on a second facade call with the session still
marked connected, connect does take the fast path — it cancels any pending
idle timer, succeeds immediately and performs no device calls — and no
firmware-identity query is made, but the facade call performs exactly one
app-identity device query (the getSigner health check) before the device
sign call. -/
theorem c5_amended (w : World) (s : SignerState) (message : List Nat)
    (hs : s.connected = true) (hw : isWantedApp w = true) :
    connect w s = ⟨{ s with timerArmed := false }, true, []⟩ ∧
    (facadeSign w (some s) message).calls = [DevCall.getAppNameVersion, DevCall.signCall] := by
  refine ⟨connect_fastPath w s hs, ?_⟩
  rcases hsr : w.signResult with _ | sig <;>
    simp [facadeSign, getSigner, signerSign, connect, disconnect, hs, hw, hsr, getSignerFresh]

/-- Witness for C5 as amended at a concrete second call. -/
theorem c5_witness :
    connectedSignerIdle.connected = true ∧ isWantedApp goodWorld = true ∧
    (connect goodWorld connectedSignerIdle =
      ⟨{ connectedSignerIdle with timerArmed := false }, true, []⟩ ∧
     (facadeSign goodWorld (some connectedSignerIdle) [9]).calls =
       [DevCall.getAppNameVersion, DevCall.signCall]) :=
  ⟨rfl, by decide, c5_amended goodWorld connectedSignerIdle [9] rfl (by decide)⟩

/-- Counterexample to claim C9: when the device sign call fails after a
successful connect, the facade Sign returns the error but the session is
left connected with its transport open (only the idle timer is armed) —
it is not left in the Disconnected state. -/
theorem c9_counterexample :
    (facadeSign wSignFail none [1]).result = Except.error SignErr.signFailed ∧
    (facadeSign wSignFail none [1]).global = some signerAfterFailedSign ∧
    signerAfterFailedSign.connected = true ∧
    signerAfterFailedSign.transportOpen = true := by
  refine ⟨by decide, by decide, rfl, rfl⟩

/-- Claim C9 as amended: a failure at any step of connect leaves the
session unconnected (and, if the transport was closed before the attempt,
closed), but a failed device operation after a successful connect leaves
the session connected with the idle timer armed; it only reaches the
disconnected state when that timer later fires. -/
theorem c9_amended :
    (∀ (w : World) (s : SignerState), (connect w s).ok = false →
      (connect w s).state.connected = false) ∧
    (∀ (w : World) (s : SignerState), (connect w s).ok = false → s.transportOpen = false →
      (connect w s).state.transportOpen = false) ∧
    ((facadeSign wSignFail none [1]).global = some signerAfterFailedSign ∧
      signerAfterFailedSign.connected = true ∧ signerAfterFailedSign.timerArmed = true) ∧
    (timerFire signerAfterFailedSign).connected = false ∧
    (timerFire signerAfterFailedSign).transportOpen = false := by
  refine ⟨connect_failed_connected, connect_failed_transport, ⟨by decide, rfl, rfl⟩, rfl, rfl⟩

/-- Witness for C9 as amended: a failed transport open leaves the session
disconnected with the transport closed. -/
theorem c9_witness :
    (connect wOpenFail signer0).state.connected = false ∧
    (connect wOpenFail signer0).state.transportOpen = false :=
  ⟨c9_amended.1 wOpenFail signer0 rfl, c9_amended.2.1 wOpenFail signer0 rfl rfl⟩
